import Mathlib

/-
Verification of the sqlx wire-protocol client (PostgreSQL v3 and
MySQL/MariaDB v10 codecs) against its natural-language specification.

Shallow embedding conventions:
  * machine integers are `Nat` with explicit `% 2 ^ w` where overflow matters;
  * byte buffers are `List Nat` (each element a byte value);
  * fallible Rust functions returning `io::Result` / `Result<_, Error>` are
    embedded with explicit result types; a Rust abort (an index out of
    range, a failed buffer split, or an explicit abort) is the `panicked`
    constructor.
-/

namespace Sqlx

/-- Result of a Rust function that returns a `Result` and may also abort. -/
inductive RResult (α : Type) where
  | ok (val : α)
  | ioError
  | panicked
deriving DecidableEq, Repr

/-- Map over the success value of an `RResult`. -/
def RResult.map {α β : Type} (f : α → β) : RResult α → RResult β
  | .ok a => .ok (f a)
  | .ioError => .ioError
  | .panicked => .panicked

/-- Little-endian byte serialization of `v` on `k` bytes (`to_le_bytes`,
truncating to the low `8 * k` bits exactly as a cast to a `k`-byte
unsigned integer does). -/
def leBytes : Nat → Nat → List Nat
  | 0, _ => []
  | k + 1, v => v % 256 :: leBytes k (v / 256)

/-- Little-endian reader of `k` bytes (`byteorder::LittleEndian` readers);
bytes past the end of the list read as 0 (matching the zero-filled buffers
the drivers read into), and each byte is reduced mod 256 since real
buffers hold bytes. -/
def readLE : Nat → List Nat → Nat
  | 0, _ => 0
  | _ + 1, [] => 0
  | k + 1, b :: rest => b % 256 + 256 * readLE k rest

/-- Big-endian reader of `k` bytes (`byteorder::BigEndian` readers). -/
def readBE : Nat → List Nat → Nat
  | 0, _ => 0
  | _ + 1, [] => 0
  | k + 1, b :: rest => b % 256 * 256 ^ k + readBE k rest

/-! ## Postgres message layer (crate `sqlx-postgres-protocol`)

`authentication.rs`, `ready_for_query.rs` and `message.rs` are embedded
from the source.  The payload-carrying messages whose decoders are not
under the source tree (`ParameterStatus`, `BackendKeyData`, `Response`)
keep their raw payload bytes. -/

/-- The `Authentication` enum from `authentication.rs`. -/
inductive Authentication where
  | Ok
  | KerberosV5
  | CleartextPassword
  | Md5Password (salt : List Nat)
  | ScmCredential
  | Gss
  | Sspi
  | GssContinue (data : List Nat)
  | Sasl
  | SaslContinue (data : List Nat)
  | SaslFinal (data : List Nat)
deriving DecidableEq, Repr

/-- `Authentication::decode` from `authentication.rs`: matches on `src[0]`
(the first payload byte); an empty buffer aborts on the index, the `5` arm
aborts if the buffer is shorter than the 5 bytes the salt slice needs, and
any unlisted first byte aborts in the unimplemented-token arm. -/
def Authentication.decode (src : List Nat) : RResult Authentication :=
  match src.head? with
  | none => .panicked
  | some b =>
    if b = 0 then .ok .Ok
    else if b = 2 then .ok .KerberosV5
    else if b = 3 then .ok .CleartextPassword
    else if b = 5 then
      if 5 ≤ src.length then .ok (.Md5Password ((src.drop 1).take 4))
      else .panicked
    else if b = 6 then .ok .ScmCredential
    else if b = 7 then .ok .Gss
    else if b = 9 then .ok .Sspi
    else .panicked

/-- Selection table of the amended claim C1, written from its words: the
variant is selected by the value of the first payload byte; byte 5 carries
the following 4-byte salt (aborting when fewer than 4 bytes follow); any
other first byte aborts. -/
def authFirstByteTable (b : Nat) (rest : List Nat) : RResult Authentication :=
  if b = 0 then .ok .Ok
  else if b = 2 then .ok .KerberosV5
  else if b = 3 then .ok .CleartextPassword
  else if b = 5 then
    if 4 ≤ rest.length then .ok (.Md5Password (rest.take 4)) else .panicked
  else if b = 6 then .ok .ScmCredential
  else if b = 7 then .ok .Gss
  else if b = 9 then .ok .Sspi
  else .panicked

/-- The `TransactionStatus` enum from `ready_for_query.rs`. -/
inductive TransactionStatus where
  | Idle
  | Transaction
  | Error
deriving DecidableEq, Repr

/-- The `ReadyForQuery` message from `ready_for_query.rs`. -/
structure ReadyForQuery where
  status : TransactionStatus
deriving DecidableEq, Repr

/-- `ReadyForQuery::decode` from `ready_for_query.rs`: exactly one byte,
one of `I`, `T`, `E`; any other byte hits the unreachable arm and aborts. -/
def ReadyForQuery.decode (src : List Nat) : RResult ReadyForQuery :=
  if src.length ≠ 1 then .ioError
  else if src.getD 0 0 = 73 then .ok ⟨.Idle⟩
  else if src.getD 0 0 = 84 then .ok ⟨.Transaction⟩
  else if src.getD 0 0 = 69 then .ok ⟨.Error⟩
  else .panicked

/-- Modelled from the spec: `ParameterStatus::decode` (its source file is
not under the source tree).  The spec says the message carries one session
parameter setting; the embedding keeps the raw payload bytes and decoding
always succeeds. -/
def ParameterStatus.decode (src : List Nat) : RResult (List Nat) := .ok src

/-- Modelled from the spec: `BackendKeyData::decode` (its source file is
not under the source tree); the embedding keeps the raw payload bytes. -/
def BackendKeyData.decode (src : List Nat) : RResult (List Nat) := .ok src

/-- Modelled from the spec: `Response::decode` for the `E`/`N` error and
notice messages (its source file is not under the source tree); the
embedding keeps the raw payload bytes. -/
def Response.decode (src : List Nat) : RResult (List Nat) := .ok src

/-- The `Message` enum from `message.rs`. -/
inductive PgMessage where
  | Authentication (a : Authentication)
  | ParameterStatus (body : List Nat)
  | BackendKeyData (body : List Nat)
  | ReadyForQuery (r : ReadyForQuery)
  | Response (body : List Nat)
deriving DecidableEq, Repr

/-- Tag dispatch of `Message::decode`: `N`/`E` (78/69) Response, `S` (83)
ParameterStatus, `Z` (90) ReadyForQuery, `R` (82) Authentication, `K` (75)
BackendKeyData; any other tag aborts in the unimplemented-token arm.
`msg` is the message payload, `rest` the remainder of the buffer. -/
def pgDispatchToken (token : Nat) (msg rest : List Nat) :
    RResult (Option PgMessage × List Nat) :=
  let wrap : RResult PgMessage → RResult (Option PgMessage × List Nat) :=
    fun r => r.map (fun m => (some m, rest))
  if token = 78 ∨ token = 69 then wrap ((Response.decode msg).map .Response)
  else if token = 83 then
    wrap ((ParameterStatus.decode msg).map .ParameterStatus)
  else if token = 90 then wrap ((ReadyForQuery.decode msg).map .ReadyForQuery)
  else if token = 82 then wrap ((Authentication.decode msg).map .Authentication)
  else if token = 75 then wrap ((BackendKeyData.decode msg).map .BackendKeyData)
  else .panicked

/-- `Message::decode` from `message.rs`.  Returns the decoded message (or
`none` if the buffer does not yet hold one) together with the buffer that
remains after `split_to`.  Stays byte-exact with the source: fewer than 5
bytes gives `none`; a zero tag byte is an error; `len` is the big-endian
u32 at bytes 1..5 (a length that INCLUDES itself); only `src.len() < len`
guards the split, so a buffer holding exactly `len` bytes reaches
`split_to(len + 1)` and aborts, and a declared `len < 4` makes
`slice_from(5)` abort on the split-off frame of `len + 1` bytes. -/
def Message.decode (src : List Nat) : RResult (Option PgMessage × List Nat) :=
  if src.length < 5 then .ok (none, src)
  else if src.getD 0 0 = 0 then .ioError
  else
    let len := readBE 4 (src.drop 1)
    if src.length < len then .ok (none, src)
    else if src.length < len + 1 then .panicked
    else if len + 1 < 5 then .panicked
    else pgDispatchToken (src.getD 0 0) ((src.take (len + 1)).drop 5)
      (src.drop (len + 1))

/-- The inner decode loop of `PgConnection::receive`
(`src/pg/connection/mod.rs` lines 84-105): repeatedly decode a message out
of the read buffer; `ParameterStatus` and `Response` messages are consumed
and dropped (both arms are empty except for remarks), any other message is
returned, and `none` stops the loop so the caller reads more bytes.  The
fuel argument only drives the recursion: each consumed message removes at
least 5 bytes from the buffer, so `buf.length + 1` fuel is never
exhausted. -/
def pgProcessBufAux : Nat → List Nat → RResult (Option PgMessage) × List Nat
  | 0, buf => (.panicked, buf)
  | fuel + 1, buf =>
    match Message.decode buf with
    | .ok (some (.ParameterStatus _), rest) => pgProcessBufAux fuel rest
    | .ok (some (.Response _), rest) => pgProcessBufAux fuel rest
    | .ok (some (.Authentication a), rest) => (.ok (some (.Authentication a)), rest)
    | .ok (some (.BackendKeyData d), rest) => (.ok (some (.BackendKeyData d)), rest)
    | .ok (some (.ReadyForQuery r), rest) => (.ok (some (.ReadyForQuery r)), rest)
    | .ok (none, rest) => (.ok none, rest)
    | .ioError => (.ioError, buf)
    | .panicked => (.panicked, buf)

/-- The inner decode loop of `PgConnection::receive` run on a buffer. -/
def pgProcessBuf (buf : List Nat) : RResult (Option PgMessage) × List Nat :=
  pgProcessBufAux (buf.length + 1) buf

/-- The `PgConnection` struct from `src/pg/connection/mod.rs`: a socket,
two readability flags, the write and read buffers, and the backend process
id and secret key captured at startup.  It holds no other state; in
particular there is no map of session parameter settings. -/
structure PgConnection where
  stream : List Nat
  stream_readable : Bool
  stream_eof : Bool
  wbuf : List Nat
  rbuf : List Nat
  process_id : Nat
  secret_key : Nat
deriving DecidableEq, Repr

/-- One pass of the decode pump inside `PgConnection::receive`: drains the
read buffer with `pgProcessBuf` and stores the remaining bytes back.  The
pump touches no field but `rbuf` (the `none` arm re-asserts
`stream_readable`, which is already true whenever the pump runs). -/
def PgConnection.receiveStep (c : PgConnection) :
    RResult (Option PgMessage) × PgConnection :=
  match pgProcessBuf c.rbuf with
  | (RResult.ok none, rest) =>
      (.ok none, { c with rbuf := rest, stream_readable := true })
  | (RResult.ok (some m), rest) => (.ok (some m), { c with rbuf := rest })
  | (RResult.ioError, rest) => (.ioError, { c with rbuf := rest })
  | (RResult.panicked, rest) => (.panicked, { c with rbuf := rest })

/-! ## MySQL/MariaDB layer -/

/-- The MySQL capability bitmask (`server.rs`); a plain bit set.  Only the
flag the embedded code consults is named here. -/
structure Capabilities where
  bits : Nat
deriving DecidableEq, Repr

/-- `CLIENT_DEPRECATE_EOF = 1 << 24` from `server.rs`. -/
def Capabilities.CLIENT_DEPRECATE_EOF : Nat := 2 ^ 24

/-- `bitflags` containment: every bit of `flag` is set. -/
def Capabilities.contains (c : Capabilities) (flag : Nat) : Bool :=
  c.bits &&& flag = flag

/-- Error kinds surfaced by the embedded driver paths. -/
inductive SqlxError where
  | unexpectedEof
deriving DecidableEq, Repr

/-- The MySQL `Connection` struct from `sqlx-core/src/mysql/connection.rs`:
a buffered stream, the internal packet buffer `rbuf`, the negotiated
capabilities, and `next_seq_no`.  The socket side of `BufStream` is
modelled from the spec by the list of bytes the socket will still yield
before end-of-file, plus the coalescing write buffer. -/
structure MySqlConnection where
  stream : List Nat
  wbuf : List Nat
  rbuf : List Nat
  capabilities : Capabilities
  next_seq_no : Nat
deriving DecidableEq, Repr

/-- `Connection::try_receive`: peek the 4-byte header (yielding `none` when
end-of-file arrives first), read the little-endian u24 length and the
sequence byte, set `next_seq_no` to the received sequence number plus one
without comparing it to anything, consume the header, then peek and
consume the `len`-byte body into `rbuf`.  `BufStream::peek` is modelled
from the spec: it suspends until `n` bytes are buffered and yields `none`
when a zero-byte read (end-of-file) happens first. -/
def MySqlConnection.tryReceive (c : MySqlConnection) :
    Option (List Nat) × MySqlConnection :=
  if c.stream.length < 4 then (none, c)
  else
    let header := c.stream.take 4
    let len := readLE 3 header
    let c1 : MySqlConnection :=
      { c with
        next_seq_no := (header.getD 3 0 % 256 + 1) % 256
        stream := c.stream.drop 4 }
    if c1.stream.length < len then (none, c1)
    else
      (some (c1.stream.take len),
        { c1 with rbuf := c1.stream.take len, stream := c1.stream.drop len })

/-- `Connection::receive`: `try_receive` with `none` turned into an
`UnexpectedEof` I/O error. -/
def MySqlConnection.receive (c : MySqlConnection) :
    Except SqlxError (List Nat × MySqlConnection) :=
  match c.tryReceive with
  | (none, _) => .error .unexpectedEof
  | (some body, c1) => .ok (body, c1)

/-- `Connection::start_sequence`: reset `next_seq_no` to 0 at the start of
a command sequence. -/
def MySqlConnection.startSequence (c : MySqlConnection) : MySqlConnection :=
  { c with next_seq_no := 0 }

/-- `Connection::write`: append to the stream's write buffer a 4-byte
header slot, filled after encoding with the little-endian u32 of the body
length whose fourth byte is then overwritten by `next_seq_no`, and
increment `next_seq_no` (u8, so mod 256).  No splitting happens: a body of
`2 ^ 24` bytes or more silently leaves only the length's low three bytes
in the header. -/
def MySqlConnection.write (c : MySqlConnection) (payload : List Nat) :
    MySqlConnection :=
  let len := payload.length
  { c with
    wbuf := c.wbuf ++ (leBytes 4 (len % 2 ^ 32)).take 3
      ++ c.next_seq_no % 256 :: payload
    next_seq_no := (c.next_seq_no + 1) % 256 }

/-- Modelled from the spec: `Framed::next_bytes` of
`mason-mariadb/src/connection/mod.rs` embedded over the spec's socket
model (the first read yields every byte the socket will deliver; a read at
end-of-stream yields zero bytes).  A zero-byte read returns `Ok` with an
empty buffer - both when it is the very first read and when it cuts a
packet short - and a buffer at least as long as the little-endian u24 at
its head is returned whole. -/
def Framed.nextBytes (avail : List Nat) : Except SqlxError (List Nat) :=
  if avail.length = 0 then .ok []
  else if avail.length < readLE 3 avail then .ok []
  else .ok avail

/-! ## MySQL result-set drain loops (`sqlx-core/src/mariadb/executor.rs`)

The three `Executor` methods share one packet dispatch; each loop is
embedded separately so it can be compared line-by-line with its source.
The constructors name what the source then does with the packet. -/

/-- What a drain loop does with one received packet. -/
inductive DrainAction where
  | decodeEof
  | decodeOk
  | errAbort
  | decodeRow
  | headAbort
deriving DecidableEq, Repr

/-- Packet dispatch of the `execute` drain loop (lines 37-59): first byte
0xFE with a body shorter than 0xFFFFFF ends the loop, decoded as an EOF
packet without `CLIENT_DEPRECATE_EOF` and as an OK packet with it; first
byte 0xFF decodes an ERR packet and then aborts; anything else is decoded
as a result row.  An empty body aborts on the `packet[0]` index. -/
def executeDrainStep (caps : Capabilities) (packet : List Nat) : DrainAction :=
  match packet.head? with
  | none => .headAbort
  | some b =>
    if b = 0xFE ∧ packet.length < 0xFFFFFF then
      if ¬caps.contains Capabilities.CLIENT_DEPRECATE_EOF then .decodeEof
      else .decodeOk
    else if b = 0xFF then .errAbort
    else .decodeRow

/-- Packet dispatch of the `fetch` drain loop (lines 80-99); textually the
same dispatch as `execute`. -/
def fetchDrainStep (caps : Capabilities) (packet : List Nat) : DrainAction :=
  match packet.head? with
  | none => .headAbort
  | some b =>
    if b = 0xFE ∧ packet.length < 0xFFFFFF then
      if ¬caps.contains Capabilities.CLIENT_DEPRECATE_EOF then .decodeEof
      else .decodeOk
    else if b = 0xFF then .errAbort
    else .decodeRow

/-- Packet dispatch of the `fetch_optional` drain loop (lines 120-139);
textually the same dispatch as `execute`. -/
def fetchOptionalDrainStep (caps : Capabilities) (packet : List Nat) :
    DrainAction :=
  match packet.head? with
  | none => .headAbort
  | some b =>
    if b = 0xFE ∧ packet.length < 0xFFFFFF then
      if ¬caps.contains Capabilities.CLIENT_DEPRECATE_EOF then .decodeEof
      else .decodeOk
    else if b = 0xFF then .errAbort
    else .decodeRow

/-- The claim's reading of the 0xFE dispatch, written from its words: a
packet with first byte 0xFE and body below 0xFFFFFF bytes terminates the
stream as OK (with deprecate-EOF) or EOF (without); at 0xFFFFFF bytes or
more it is a result row. -/
def feDispatchSpec (caps : Capabilities) (rest : List Nat) : DrainAction :=
  if rest.length + 1 < 0xFFFFFF then
    if caps.contains Capabilities.CLIENT_DEPRECATE_EOF then .decodeOk
    else .decodeEof
  else .decodeRow

/-- What `Connection::receive_ok_or_err` does with one received packet
(`sqlx-core/src/mysql/connection.rs` lines 145-164): 0xFE or 0x00 decodes
an OK packet for the caller; 0xFF decodes the ERR packet and returns it as
an error value; any other byte returns a protocol error value.  An empty
body aborts on the `buf[0]` index. -/
inductive OkOrErrAction where
  | okDecoded
  | dbErrorDelivered
  | protocolErrorDelivered
  | headAbort
deriving DecidableEq, Repr

/-- Packet dispatch of `Connection::receive_ok_or_err`. -/
def receiveOkOrErrStep (packet : List Nat) : OkOrErrAction :=
  match packet.head? with
  | none => .headAbort
  | some b =>
    if b = 0xFE ∨ b = 0x00 then .okDecoded
    else if b = 0xFF then .dbErrorDelivered
    else .protocolErrorDelivered

/-! ## MySQL codec primitives -/

/-- `U24_MAX` from `encode.rs` / `serialize.rs`. -/
def U24_MAX : Nat := 0xFFFFFF

/-- `std::u64::MAX`. -/
def U64_MAX : Nat := 2 ^ 64 - 1

/-- `Encoder::encode_int_lenenc` from `src/mariadb/protocol/encode.rs`:
`None` emits the NULL sentinel 0xFB; a value above `U24_MAX` emits 0xFE
plus a little-endian u64; above `u16::MAX` emits 0xFD plus a u24; above
`u8::MAX` emits 0xFC plus a u16; a value of at most `u8::MAX` is one
verbatim byte unless it is one of the sentinel bytes 0xFB-0xFF, which are
emitted as 0xFC plus the value as a u16; the unreachable final arm (usize
is 64-bit) aborts. -/
def Encoder.encodeIntLenenc (value : Option Nat) : Option (List Nat) :=
  match value with
  | some v =>
    if v > U24_MAX ∧ v ≤ U64_MAX then some (0xFE :: leBytes 8 v)
    else if v > 0xFFFF ∧ v ≤ U24_MAX then some (0xFD :: leBytes 3 (v % 2 ^ 32))
    else if v > 0xFF ∧ v ≤ 0xFFFF then some (0xFC :: leBytes 2 (v % 2 ^ 16))
    else if v ≤ 0xFF then
      if v = 0xFB ∨ v = 0xFC ∨ v = 0xFD ∨ v = 0xFE ∨ v = 0xFF then
        some [0xFC, v % 256, 0]
      else some [v]
    else none
  | none => some [0xFB]

/-- `serialize_int_lenenc` from `mason-mariadb/src/protocol/serialize.rs`:
the same three large-value arms, but every value of at most `u8::MAX` is
emitted as 0xFA followed by the value byte - never as a verbatim single
byte. -/
def serializeIntLenenc (value : Option Nat) : Option (List Nat) :=
  match value with
  | some v =>
    if v > U24_MAX ∧ v ≤ U64_MAX then some (0xFE :: leBytes 8 v)
    else if v > 0xFFFF ∧ v ≤ U24_MAX then some (0xFD :: leBytes 3 (v % 2 ^ 32))
    else if v > 0xFF ∧ v ≤ 0xFFFF then some (0xFC :: leBytes 2 (v % 2 ^ 16))
    else if v ≤ 0xFF then some [0xFA, v % 256]
    else none
  | none => some [0xFB]

/-- The claim's encoding table, written from its words: one verbatim byte
for `v ≤ 250`, then 0xFC plus a little-endian u16, 0xFD plus a u24, 0xFE
plus a u64, each used for the smallest range that fits. -/
def lenencSpec (v : Nat) : List Nat :=
  if v ≤ 250 then [v]
  else if v ≤ 0xFFFF then 0xFC :: leBytes 2 v
  else if v ≤ 0xFFFFFF then 0xFD :: leBytes 3 v
  else 0xFE :: leBytes 8 v

/-- The minimum among the sizes 1, 3, 4, 9 whose encoding fits `v` (1 fits
the verbatim values up to 250, 3 fits a u16, 4 a u24, 9 a u64). -/
def lenencMinFit (v : Nat) : Nat :=
  if v ≤ 250 then 1
  else if v ≤ 0xFFFF then 3
  else if v ≤ 0xFFFFFF then 4
  else 9

/-- Modelled from the spec: the length-encoded-integer reader (the decoder
module is not under the source tree).  It mirrors the writer: a first byte
of at most 250 is the value; 0xFB is NULL; 0xFC, 0xFD, 0xFE prefix a
little-endian u16, u24, u64; an exhausted buffer or the reserved byte 0xFF
is malformed. -/
def decodeIntLenenc (buf : List Nat) : Option (Option Nat × List Nat) :=
  match buf with
  | [] => none
  | b :: rest =>
    if b ≤ 250 then some (some b, rest)
    else if b = 0xFB then some (none, rest)
    else if b = 0xFC then
      if 2 ≤ rest.length then some (some (readLE 2 rest), rest.drop 2)
      else none
    else if b = 0xFD then
      if 3 ≤ rest.length then some (some (readLE 3 rest), rest.drop 3)
      else none
    else if b = 0xFE then
      if 8 ≤ rest.length then some (some (readLE 8 rest), rest.drop 8)
      else none
    else none

/-- `Encoder::encode_length` from `src/mariadb/protocol/encode.rs`: aborts
when the whole buffer (header included) exceeds `U24_MAX` bytes or is
shorter than the 4 header bytes; otherwise overwrites the first three
bytes with the little-endian u24 of the body length (`buf.len() - 4`).
`none` is the abort. -/
def Encoder.encodeLength (buf : List Nat) : Option (List Nat) :=
  if buf.length > U24_MAX then none
  else if buf.length < 4 then none
  else some (leBytes 3 (buf.length - 4) ++ buf.drop 3)

/-- `serialize_length` from `mason-mariadb/src/protocol/serialize.rs`: the
same, except the short-buffer abort also fires at exactly 4 bytes. -/
def serializeLength (buf : List Nat) : Option (List Nat) :=
  if buf.length > U24_MAX then none
  else if buf.length ≤ 4 then none
  else some (leBytes 3 (buf.length - 4) ++ buf.drop 3)

/-! ## MariaDB OK-packet decoding (`mason-mariadb/src/protocol/server.rs`) -/

/-- The sum of every bit declared by `ServerStatusFlag` in `server.rs`
(1, 2, 8, 16, ..., 1 << 14); `from_bits_truncate` masks with it. -/
def serverStatusFlagMask : Nat := 32763

/-- `SERVER_STATUS_IN_TRANS = 1` from `server.rs`. -/
def ServerStatusFlag.SERVER_STATUS_IN_TRANS : Nat := 1

/-- The `OkPacket` struct from `server.rs`. -/
structure OkPacket where
  length : Nat
  seq_no : Nat
  affected_rows : Option Nat
  last_insert_id : Option Nat
  server_status : Nat
  warning_count : Nat
  info : List Nat
  session_state_info : Option (List Nat)
  value : Option (List Nat)
deriving DecidableEq, Repr

/-- `OkPacket::deserialize` from `server.rs` lines 341-384, over the
byte-reader modelled from the spec (the decoder module is not under the
source tree; readers are little-endian, advance a cursor, and the
EOF-terminated byte string takes the rest of the buffer): u24 packet
length, sequence byte, a packet-header byte that must be 0 or 0xFE (the
source aborts otherwise; the sibling in `packets/ok.rs` returns an error
instead), two length-encoded integers for affected rows and last insert
id, the u16 server status truncated to the declared flag bits, the u16
warning count, then the rest as `info`.  Session tracking is assumed
unsupported, so `session_state_info` and `value` stay `None`. -/
def OkPacket.deserialize (buf : List Nat) : RResult OkPacket :=
  if buf.length < 3 then .ioError
  else
    let length := readLE 3 buf
    let seq_no := buf.getD 3 0 % 256
    let packet_header := buf.getD 4 0 % 256
    if packet_header ≠ 0 ∧ packet_header ≠ 0xFE then .panicked
    else
      match decodeIntLenenc (buf.drop 5) with
      | none => .ioError
      | some (affected_rows, r1) =>
        match decodeIntLenenc r1 with
        | none => .ioError
        | some (last_insert_id, r2) =>
          .ok
            { length := length
              seq_no := seq_no
              affected_rows := affected_rows
              last_insert_id := last_insert_id
              server_status := readLE 2 r2 &&& serverStatusFlagMask
              warning_count := readLE 2 (r2.drop 2)
              info := r2.drop 4
              session_state_info := none
              value := none }

/-! ## Concrete inputs used by the per-claim theorems -/

/-- A well-formed CleartextPassword request payload: the big-endian u32
authentication code 3 (what a Postgres server actually sends). -/
def cleartextRequestPayload : List Nat := [0, 0, 0, 3]

/-- An 8-byte buffer whose declared self-including length is exactly 8:
tag `R`, big-endian length 8, three payload bytes.  The complete message
is 9 bytes (tag plus length), so this buffer is one byte short. -/
def c7ExactLengthBuffer : List Nat := [82, 0, 0, 0, 8, 0, 0, 0]

/-- A `ParameterStatus` frame (tag `S`, length 10, payload `ab\0cd\0`)
followed by a `ReadyForQuery` frame (tag `Z`, length 5, status `I`). -/
def c9Buffer : List Nat :=
  [83, 0, 0, 0, 10, 97, 98, 0, 99, 100, 0] ++ [90, 0, 0, 0, 5, 73]

/-- A Postgres connection that holds the `c9Buffer` read buffer. -/
def c9Conn : PgConnection :=
  { stream := []
    stream_readable := true
    stream_eof := false
    wbuf := []
    rbuf := c9Buffer
    process_id := 7
    secret_key := 11
    }

/-- A MySQL connection awaiting a response: the client has just written its
command packet 0, so the expected next inbound sequence number is 1.  The
socket holds a packet with length 3 and sequence number 5. -/
def c4Conn : MySqlConnection :=
  { stream := [3, 0, 0, 5, 9, 9, 9]
    wbuf := []
    rbuf := []
    capabilities := ⟨0⟩
    next_seq_no := 1 }

/-- A MySQL connection with empty buffers about to write a packet. -/
def c6Conn : MySqlConnection :=
  { stream := []
    wbuf := []
    rbuf := []
    capabilities := ⟨0⟩
    next_seq_no := 0 }

/-- The spec's well-formed ERR packet body:
`FF EA 03 '#' "HY000" "NO"`. -/
def wellFormedErrBody : List Nat :=
  [0xFF, 0xEA, 0x03, 35, 72, 89, 48, 48, 48, 78, 79]

/-- The OK-packet bytes of the claim: length 15, sequence 1, header 0,
NULL affected rows, NULL last insert id, status 0x0101, no warnings,
info `info`. -/
def c10Input : List Nat :=
  [0x0F, 0x00, 0x00, 0x01, 0x00, 0xFB, 0xFB, 0x01, 0x01, 0x00, 0x00,
    105, 110, 102, 111]

/-! ## Supporting lemmas -/

theorem leBytes_length (k v : Nat) : (leBytes k v).length = k := by
  induction k generalizing v with
  | zero => rfl
  | succ k ih => simp [leBytes, ih]

theorem readLE_leBytes_append (k : Nat) (v : Nat) (rest : List Nat)
    (h : v < 2 ^ (8 * k)) : readLE k (leBytes k v ++ rest) = v := by
  induction k generalizing v with
  | zero =>
      interval_cases v
      rfl
  | succ k ih =>
      have h2 : (2 : Nat) ^ (8 * (k + 1)) = 256 * 2 ^ (8 * k) := by ring
      have hdiv : v / 256 < 2 ^ (8 * k) := Nat.div_lt_of_lt_mul (h2 ▸ h)
      have hcons : leBytes (k + 1) v ++ rest
          = v % 256 :: (leBytes k (v / 256) ++ rest) := rfl
      rw [hcons]
      simp only [readLE, ih _ hdiv]
      omega

theorem readLE_leBytes (k : Nat) (v : Nat) (h : v < 2 ^ (8 * k)) :
    readLE k (leBytes k v) = v := by
  simpa using readLE_leBytes_append k v [] h

theorem leBytes_succ_take (k v : Nat) :
    (leBytes (k + 1) v).take k = leBytes k v := by
  induction k generalizing v with
  | zero => rfl
  | succ k ih =>
      show (v % 256 :: leBytes (k + 1) (v / 256)).take (k + 1)
          = v % 256 :: leBytes k (v / 256)
      rw [List.take_succ_cons, ih]

theorem leBytes_mod (k v : Nat) : leBytes k (v % 2 ^ (8 * k)) = leBytes k v := by
  induction k generalizing v with
  | zero => rfl
  | succ k ih =>
      have h2 : (2 : Nat) ^ (8 * (k + 1)) = 256 * 2 ^ (8 * k) := by ring
      simp only [leBytes, h2]
      refine congrArg₂ _ ?_ ?_
      · exact Nat.mod_mod_of_dvd v (dvd_mul_right 256 _)
      · rw [Nat.mod_mul_right_div_self, ih]

theorem pgProcessBufAux_no_parameter_status (fuel : Nat) :
    ∀ buf ps, (pgProcessBufAux fuel buf).1 ≠ RResult.ok (some (.ParameterStatus ps)) := by
  induction fuel with
  | zero => intro buf ps; simp [pgProcessBufAux]
  | succ fuel ih =>
      intro buf ps
      simp only [pgProcessBufAux]
      split
      · exact ih _ ps
      · exact ih _ ps
      · simp
      · simp
      · simp
      · simp
      · simp
      · simp

/-! ## Claim theorems -/

/-- Claim C1 (amended): `Authentication::decode` selects the variant by the
value of the first payload byte - 0 Ok, 2 KerberosV5, 3 CleartextPassword,
5 MD5Password carrying the following 4 bytes as salt, 6 ScmCredential,
7 Gss, 9 Sspi - and any other first byte aborts instead of failing with an
error; consequently a genuine wire payload, whose first byte is the most
significant byte of the big-endian u32 code, decodes as Ok whenever its
code is below 2 ^ 24. -/
theorem c1_auth_selects_by_first_byte (b : Nat) (rest : List Nat) :
    Authentication.decode (b :: rest) = authFirstByteTable b rest ∧
    Authentication.decode (0 :: rest) = .ok .Ok := by
  constructor
  · have h45 : (5 ≤ rest.length + 1) ↔ (4 ≤ rest.length) := by omega
    simp [Authentication.decode, authFirstByteTable, h45]
  · rfl

/-- Claim C1 counterexample: the well-formed CleartextPassword request
(first payload u32 = 3) decodes as `Ok`, not `CleartextPassword`, because
the code matches the first byte of the big-endian code; and a buffer whose
first byte is an unimplemented token aborts instead of failing with an
`AuthUnsupported` error. -/
theorem c1_counterexample :
    Authentication.decode cleartextRequestPayload
        = RResult.ok Authentication.Ok ∧
    readBE 4 cleartextRequestPayload = 3 ∧
    Authentication.decode cleartextRequestPayload
        ≠ RResult.ok Authentication.CleartextPassword ∧
    Authentication.decode [10, 0, 0, 0] = RResult.panicked := by decide

/-- Claim C7: with a buffer holding exactly the declared self-including
length (8 bytes here) but not the additional tag byte, `Message::decode`
aborts on the out-of-range `split_to(len + 1)` instead of returning `None`
as its own incomplete-data guards intend. -/
theorem c7_exact_length_buffer_aborts :
    Message.decode c7ExactLengthBuffer = RResult.panicked ∧
    c7ExactLengthBuffer.length = readBE 4 (c7ExactLengthBuffer.drop 1) := by
  decide

/-- Claim C10: decoding the OK packet `0F 00 00 01 00 FB FB 01 01 00 00`
followed by the ASCII bytes of `info` yields affected rows None, last
insert id None, a server status containing SERVER_STATUS_IN_TRANS (bits
0x0101 survive the truncating mask), warning count 0, and info equal to
the bytes of `info`. -/
theorem c10_ok_packet_decode :
    OkPacket.deserialize c10Input =
      RResult.ok
        { length := 15
          seq_no := 1
          affected_rows := none
          last_insert_id := none
          server_status := 257
          warning_count := 0
          info := [105, 110, 102, 111]
          session_state_info := none
          value := none } ∧
    257 &&& ServerStatusFlag.SERVER_STATUS_IN_TRANS ≠ 0 := by decide

/-- Claim C2: in all three drain loops (`execute`, `fetch`,
`fetch_optional`), a packet whose first byte is 0xFE with a body smaller
than 0xFFFFFF bytes terminates the row stream and is decoded as an OK
packet when CLIENT_DEPRECATE_EOF was negotiated and as an EOF packet
otherwise, and a packet whose first byte is 0xFE with a body of 0xFFFFFF
bytes or more is decoded as a result row. -/
theorem c2_fe_dispatch (caps : Capabilities) (rest : List Nat) :
    executeDrainStep caps (0xFE :: rest) = feDispatchSpec caps rest ∧
    fetchDrainStep caps (0xFE :: rest) = feDispatchSpec caps rest ∧
    fetchOptionalDrainStep caps (0xFE :: rest) = feDispatchSpec caps rest := by
  refine ⟨?_, ?_, ?_⟩ <;>
    · simp only [executeDrainStep, fetchDrainStep, fetchOptionalDrainStep,
        feDispatchSpec, List.head?_cons, List.length_cons]
      split_ifs <;> simp_all

/-- Claim C3 (amended): an ERR packet answering `receive_ok_or_err` (the
ping and prepare paths) is delivered to the caller as an error value, but
an ERR packet received while draining a result set in `execute`, `fetch`
or `fetch_optional` is decoded and then aborts the process instead of
being delivered. -/
theorem c3_err_dispatch (caps : Capabilities) (rest : List Nat) :
    receiveOkOrErrStep (0xFF :: rest) = OkOrErrAction.dbErrorDelivered ∧
    executeDrainStep caps (0xFF :: rest) = DrainAction.errAbort ∧
    fetchDrainStep caps (0xFF :: rest) = DrainAction.errAbort ∧
    fetchOptionalDrainStep caps (0xFF :: rest) = DrainAction.errAbort := by
  refine ⟨rfl, ?_, ?_, ?_⟩ <;>
    · simp only [executeDrainStep, fetchDrainStep, fetchOptionalDrainStep,
        List.head?_cons]
      split_ifs <;> simp_all

/-- Claim C3 counterexample: the spec's well-formed ERR packet
(`FF EA 03 # HY000 NO`) received in any of the three drain loops makes the
driver abort instead of delivering a DatabaseError value. -/
theorem c3_counterexample :
    executeDrainStep ⟨0⟩ wellFormedErrBody = DrainAction.errAbort ∧
    fetchDrainStep ⟨0⟩ wellFormedErrBody = DrainAction.errAbort ∧
    fetchOptionalDrainStep ⟨0⟩ wellFormedErrBody = DrainAction.errAbort ∧
    DrainAction.errAbort ≠ DrainAction.decodeOk := by decide

/-- Claim C8: when the socket reaches end-of-file (a zero-byte read)
before a complete packet while a response is awaited, the next
`Connection::receive` fails with `UnexpectedEof`; the framed reader's
zero-byte read with nothing pending returns cleanly with an empty
buffer. -/
theorem c8_eof_behaviour :
    (∀ wb rb caps seq,
        MySqlConnection.receive
            { stream := [], wbuf := wb, rbuf := rb, capabilities := caps,
              next_seq_no := seq }
          = .error .unexpectedEof) ∧
    Framed.nextBytes [] = .ok [] := by
  exact ⟨fun _ _ _ _ => rfl, rfl⟩

/-- Claim C9 (amended): the decode pump inside `PgConnection::receive`
consumes `ParameterStatus` messages without surfacing them to the caller
and leaves every connection field except the read buffer unchanged - in
particular nothing is cached anywhere: the connection (see
`PgConnection`) holds no map of session parameter settings, and the
settings are discarded. -/
theorem c9_parameter_status_discarded (c : PgConnection) :
    (∀ ps, (c.receiveStep).1 ≠ RResult.ok (some (.ParameterStatus ps))) ∧
    (c.receiveStep).2.process_id = c.process_id ∧
    (c.receiveStep).2.secret_key = c.secret_key ∧
    (c.receiveStep).2.wbuf = c.wbuf ∧
    (c.receiveStep).2.stream = c.stream ∧
    (c.receiveStep).2.stream_eof = c.stream_eof := by
  have hps : ∀ ps,
      (pgProcessBuf c.rbuf).1 ≠ RResult.ok (some (.ParameterStatus ps)) :=
    fun ps => pgProcessBufAux_no_parameter_status _ c.rbuf ps
  rcases hdec : pgProcessBuf c.rbuf with ⟨r, rest⟩
  rw [hdec] at hps
  cases r with
  | ok m =>
      cases m with
      | none => simp [PgConnection.receiveStep, hdec]
      | some msg =>
          refine ⟨fun ps => ?_, ?_, ?_, ?_, ?_, ?_⟩ <;>
            simp [PgConnection.receiveStep, hdec]
          intro hmsg
          exact hps ps (by simp [hmsg])
  | ioError => simp [PgConnection.receiveStep, hdec]
  | panicked => simp [PgConnection.receiveStep, hdec]

/-- Claim C9 counterexample: on a buffer holding a ParameterStatus frame
(setting `ab` to `cd`) followed by ReadyForQuery, the pump surfaces only
the ReadyForQuery message and the resulting connection equals the original
with an emptied read buffer: the consumed parameter setting is recorded
nowhere, so nothing is cached in any map. -/
theorem c9_counterexample :
    c9Conn.receiveStep =
      (RResult.ok (some (.ReadyForQuery ⟨.Idle⟩)), { c9Conn with rbuf := [] }) := by
  decide

/-- Claim C4 (amended): the client's own sequence number resets to 0 at
the start of each command and is stamped into the fourth header byte and
incremented by one (mod 256) per packet written; but on receive the
connection performs no validation: `try_receive` accepts a packet bearing
any sequence number `s` whatsoever and silently adopts `s + 1` as its next
sequence number instead of failing on a mismatch. -/
theorem c4_sequence_numbers (c : MySqlConnection)
    (payload body extra : List Nat) (s : Nat)
    (hb : body.length < 2 ^ 24) (hs : s < 256) :
    (c.startSequence).next_seq_no = 0 ∧
    (c.write payload).next_seq_no = (c.next_seq_no + 1) % 256 ∧
    (c.write payload).wbuf =
      c.wbuf ++ (leBytes 4 (payload.length % 2 ^ 32)).take 3
        ++ c.next_seq_no % 256 :: payload ∧
    MySqlConnection.tryReceive
        { c with stream := leBytes 3 body.length ++ s :: (body ++ extra) } =
      (some body,
        { c with stream := extra, rbuf := body,
                 next_seq_no := (s + 1) % 256 }) := by
  refine ⟨rfl, rfl, rfl, ?_⟩
  obtain ⟨x0, x1, x2, hx⟩ :
      ∃ a0 a1 a2, leBytes 3 body.length = [a0, a1, a2] := ⟨_, _, _, rfl⟩
  have hread : readLE 3 [x0, x1, x2, s] = body.length := by
    have hsplit : ([x0, x1, x2, s] : List Nat) = leBytes 3 body.length ++ [s] := by
      simp [hx]
    rw [hsplit]
    exact readLE_leBytes_append 3 body.length [s] (by norm_num; omega)
  rw [hx]
  unfold MySqlConnection.tryReceive
  simp only [List.cons_append, List.nil_append, List.length_cons,
    List.length_append]
  rw [if_neg (by omega)]
  simp only [List.take_succ_cons, List.take_zero, List.drop_succ_cons,
    List.drop_zero]
  rw [hread]
  rw [if_neg (by simp only [List.length_append]; omega)]
  rw [List.take_left, List.drop_left]
  have hs256 : s % 256 = s := Nat.mod_eq_of_lt hs
  simp [hs256, List.getD]

/-- Claim C4 counterexample: a connection expecting inbound sequence
number 1 receives a packet with sequence number 5; `receive` succeeds and
returns the body - no framing error is raised - and the connection adopts
6 as its next sequence number. -/
theorem c4_counterexample :
    MySqlConnection.receive c4Conn =
      .ok ([9, 9, 9],
        { c4Conn with stream := [], rbuf := [9, 9, 9], next_seq_no := 6 }) ∧
    c4Conn.next_seq_no = 1 := ⟨rfl, rfl⟩

/-- Claim C4 witness: the amended theorem applied at the concrete
connection `c4Conn`. -/
theorem c4_sequence_numbers_witness :
    MySqlConnection.tryReceive c4Conn =
      (some [9, 9, 9],
        { c4Conn with stream := [], rbuf := [9, 9, 9], next_seq_no := 6 }) := by
  have h :=
    (c4_sequence_numbers c4Conn [7] [9, 9, 9] [] 5 (by norm_num) (by norm_num)).2.2.2
  simpa [c4Conn, leBytes] using h

/-- Dropping the encoded prefix returns the appended remainder. -/
theorem drop_leBytes_append (k v : Nat) (extra : List Nat) :
    (leBytes k v ++ extra).drop k = extra := by
  have h := List.drop_left (leBytes k v) extra
  rwa [leBytes_length] at h

/-- Truncation to 24 bits before encoding on 3 bytes changes nothing. -/
theorem leBytes3_mod (v : Nat) : leBytes 3 (v % 2 ^ 24) = leBytes 3 v := by
  have h : (2 : Nat) ^ 24 = 2 ^ (8 * 3) := by norm_num
  rw [h]
  exact leBytes_mod 3 v

/-- The write-buffer effect of `Connection::write`: the length is emitted
as a little-endian u32 whose fourth byte is overwritten by the sequence
number, leaving the low three bytes - the length mod 2 ^ 24. -/
theorem write_wbuf (c : MySqlConnection) (payload : List Nat) :
    (c.write payload).wbuf =
      c.wbuf ++ leBytes 3 (payload.length % 2 ^ 24)
        ++ c.next_seq_no % 256 :: payload := by
  have ht : (leBytes 4 (payload.length % 2 ^ 32)).take 3
      = leBytes 3 (payload.length % 2 ^ 32) := leBytes_succ_take 3 _
  have hmod : payload.length % 2 ^ 32 % 2 ^ 24 = payload.length % 2 ^ 24 :=
    Nat.mod_mod_of_dvd _ (by norm_num)
  show c.wbuf ++ (leBytes 4 (payload.length % 2 ^ 32)).take 3
      ++ c.next_seq_no % 256 :: payload = _
  rw [ht, ← leBytes3_mod (payload.length % 2 ^ 32), hmod, leBytes3_mod]

/-- Claim C5 (amended): `Encoder::encode_int_lenenc` realises the claim
exactly - one verbatim byte for v up to 250, the 0xFC/0xFD/0xFE prefixed
little-endian forms above that, 0xFB for NULL, minimal encoded size, and
decoding (the reader modelled from the spec) returns v - while the older
`serialize_int_lenenc` instead emits 0xFA followed by the value byte for
every value of at most 255, never a verbatim single byte. -/
theorem c5_lenenc_roundtrip (v : Nat) (extra : List Nat) (hv : v < 2 ^ 64) :
    Encoder.encodeIntLenenc (some v) = some (lenencSpec v) ∧
    Encoder.encodeIntLenenc none = some [0xFB] ∧
    (lenencSpec v).length = lenencMinFit v ∧
    decodeIntLenenc (lenencSpec v ++ extra) = some (some v, extra) ∧
    decodeIntLenenc (0xFB :: extra) = some (none, extra) ∧
    serializeIntLenenc (some (v % 256)) = some [0xFA, v % 256] := by
  refine ⟨?_, rfl, ?_, ?_, rfl, ?_⟩
  · simp only [Encoder.encodeIntLenenc, lenencSpec, U24_MAX, U64_MAX]
    split_ifs <;>
      first
        | rfl
        | omega
        | (rw [show v % 2 ^ 32 = v from Nat.mod_eq_of_lt (by omega)])
        | (rw [show v % 2 ^ 16 = v from Nat.mod_eq_of_lt (by omega)])
        | (simp [leBytes]; omega)
  · unfold lenencSpec lenencMinFit
    split_ifs <;> simp [leBytes_length]
  · unfold lenencSpec
    split_ifs with h1 h2 h3
    · simp [decodeIntLenenc, h1]
    · have hlt : v < 2 ^ (8 * 2) := by norm_num; omega
      simp [decodeIntLenenc, leBytes_length,
        readLE_leBytes_append 2 v extra hlt, drop_leBytes_append]
    · have hlt : v < 2 ^ (8 * 3) := by norm_num; omega
      simp [decodeIntLenenc, leBytes_length,
        readLE_leBytes_append 3 v extra hlt, drop_leBytes_append]
    · have hlt : v < 2 ^ (8 * 8) := by norm_num; omega
      simp [decodeIntLenenc, leBytes_length,
        readLE_leBytes_append 8 v extra hlt, drop_leBytes_append]
  · have h256 : v % 256 < 256 := Nat.mod_lt _ (by norm_num)
    have hmm : v % 256 % 256 = v % 256 :=
      Nat.mod_mod_of_dvd v (dvd_refl 256)
    simp only [serializeIntLenenc, U24_MAX, U64_MAX]
    split_ifs <;> first | omega | (rw [hmm])

/-- Claim C5 counterexample: `serialize_int_lenenc` at value 0 emits the
two bytes 0xFA 00, not the single verbatim byte 00 the claim requires for
every value of at most 250. -/
theorem c5_counterexample :
    serializeIntLenenc (some 0) = some [0xFA, 0] ∧
    serializeIntLenenc (some 0) ≠ some [0] := by decide

/-- Claim C5 witness: the amended theorem applied at value 300. -/
theorem c5_lenenc_roundtrip_witness :
    (300 : Nat) < 2 ^ 64 ∧
    Encoder.encodeIntLenenc (some 300) = some (lenencSpec 300) ∧
    decodeIntLenenc (lenencSpec 300 ++ [9]) = some (some 300, [9]) := by
  have h := c5_lenenc_roundtrip 300 [9] (by norm_num)
  exact ⟨by norm_num, h.1, h.2.2.2.1⟩

/-- Claim C6 (amended): a packet written by `Connection::write` whose body
is below 2 ^ 24 bytes begins with the body length as a 3-byte little-endian
integer, then the 1-byte sequence number, then the body, and
`encode_length` / `serialize_length` stamp the same 3-byte header; but an
over-long payload is not split into continuation packets: the two length
encoders abort once the buffer exceeds 2 ^ 24 - 1 bytes, and
`Connection::write` emits the length modulo 2 ^ 24, mis-framing the
packet. -/
theorem c6_packet_framing (c : MySqlConnection)
    (payload big bufS bufL : List Nat)
    (hp : payload.length < 2 ^ 24)
    (hs1 : 4 < bufS.length) (hs2 : bufS.length ≤ U24_MAX)
    (hl : U24_MAX < bufL.length) :
    (c.write payload).wbuf =
      c.wbuf ++ leBytes 3 payload.length ++ c.next_seq_no % 256 :: payload ∧
    Encoder.encodeLength bufS =
      some (leBytes 3 (bufS.length - 4) ++ bufS.drop 3) ∧
    serializeLength bufS =
      some (leBytes 3 (bufS.length - 4) ++ bufS.drop 3) ∧
    Encoder.encodeLength bufL = none ∧
    serializeLength bufL = none ∧
    (c.write big).wbuf =
      c.wbuf ++ leBytes 3 (big.length % 2 ^ 24)
        ++ c.next_seq_no % 256 :: big := by
  refine ⟨?_, ?_, ?_, ?_, ?_, write_wbuf c big⟩
  · rw [write_wbuf, Nat.mod_eq_of_lt hp]
  · unfold Encoder.encodeLength
    rw [if_neg (by omega), if_neg (by omega)]
  · unfold serializeLength
    rw [if_neg (by omega), if_neg (by omega)]
  · unfold Encoder.encodeLength
    rw [if_pos (by omega)]
  · unfold serializeLength
    rw [if_pos (by omega)]

/-- Claim C6 counterexample: at a body of exactly 2 ^ 24 bytes the two
length encoders abort ("Buffer too long") and `Connection::write` frames
the packet with a declared body length of 0 (the length's fourth byte is
overwritten by the sequence number), in one unsplit packet - nothing is
split into continuation packets. -/
theorem c6_counterexample :
    Encoder.encodeLength (List.replicate (2 ^ 24 + 4) 0) = none ∧
    serializeLength (List.replicate (2 ^ 24 + 4) 0) = none ∧
    (MySqlConnection.write c6Conn (List.replicate (2 ^ 24) 7)).wbuf =
      0 :: 0 :: 0 :: 0 :: List.replicate (2 ^ 24) 7 ∧
    readLE 3 ((MySqlConnection.write c6Conn (List.replicate (2 ^ 24) 7)).wbuf)
      = 0 ∧
    (List.replicate (2 ^ 24) 7 : List Nat).length = 2 ^ 24 := by
  have hw : (MySqlConnection.write c6Conn (List.replicate (2 ^ 24) 7)).wbuf =
      0 :: 0 :: 0 :: 0 :: List.replicate (2 ^ 24) 7 := by
    rw [write_wbuf]
    norm_num [c6Conn, leBytes]
  refine ⟨?_, ?_, hw, ?_, ?_⟩
  · unfold Encoder.encodeLength
    rw [if_pos (by norm_num [U24_MAX])]
  · unfold serializeLength
    rw [if_pos (by norm_num [U24_MAX])]
  · rw [hw]
    simp [readLE]
  · rw [List.length_replicate]

/-- Claim C6 witness: the amended theorem applied at a 2-byte body. -/
theorem c6_packet_framing_witness :
    (MySqlConnection.write c6Conn [7, 8]).wbuf = [2, 0, 0, 0, 7, 8] := by
  have h := (c6_packet_framing c6Conn [7, 8] (List.replicate (2 ^ 24) 7)
      [0, 0, 0, 0, 9] (List.replicate (2 ^ 24 + 4) 0)
      (by norm_num) (by norm_num) (by norm_num [U24_MAX])
      (by rw [List.length_replicate]; norm_num [U24_MAX])).1
  simpa [c6Conn, leBytes] using h

end Sqlx
